import Mathlib

set_option maxRecDepth 8192

/-!
# Verification of the time-bucketed metrics query compiler

A shallow embedding of `newslynx/tasks/query_metric.py` (class `TSQuery` and
its two concrete subclasses).  The source is Python 2: string templates are
rendered with `str.format`; here each template is rendered by explicit string
concatenation with the template text reproduced character for character
(single quotes are written with the escape `\x27`).  Python's
`dict name -> metric` catalogs are modelled as lists of `MetricDef` in
iteration order; `dict.keys()` in Python 2 returns a snapshot list, so the
source's pop-while-looping removal behaves as an order-preserving filter,
which is how `select_metrics` is rendered below.
-/

/-- A metric definition, the value of one entry of the per-organization
catalog dict: `name` (the dict key), `type` (`"count"` or `"cumulative"`),
and `agg_fx` (`"sum"`, `"avg"`, `"max"`, `"min"`, `"last"`). -/
structure MetricDef where
  name : String
  type : String
  agg_fx : String
deriving DecidableEq, Repr

/-- Modelled from the spec: the per-organization metric catalogs.  The `Org`
model itself is not under `src/`; the spec's catalog-adapter contract is
`metrics_for(org)` / `computed_metrics_for(org)` returning a mapping
`name -> MetricDefinition`.  The four attributes are the ones the two
`TSQuery` subclasses name via `metrics_attr` / `computed_metrics_attr`. -/
structure Org where
  timeseries_metrics : List MetricDef
  computed_timeseries_metrics : List MetricDef
  content_timeseries_metrics : List MetricDef
  computed_content_timeseries_metrics : List MetricDef
deriving DecidableEq, Repr

/-- Modelled from the spec: `getattr(org, attr)` for the four metric-catalog
attributes, returning the organization's stored mapping. -/
def Org.getattrMetrics (o : Org) (attr : String) : List MetricDef :=
  if attr = "timeseries_metrics" then o.timeseries_metrics
  else if attr = "computed_timeseries_metrics" then o.computed_timeseries_metrics
  else if attr = "content_timeseries_metrics" then o.content_timeseries_metrics
  else o.computed_content_timeseries_metrics

/-- Modelled from the spec: writing back one of the four catalog attributes.
Used to express the effect of mutating, through the reference obtained from
`getattr`, the mapping stored on the org. -/
def Org.setattrMetrics (o : Org) (attr : String) (v : List MetricDef) : Org :=
  if attr = "timeseries_metrics" then
    ⟨v, o.computed_timeseries_metrics, o.content_timeseries_metrics,
      o.computed_content_timeseries_metrics⟩
  else if attr = "computed_timeseries_metrics" then
    ⟨o.timeseries_metrics, v, o.content_timeseries_metrics,
      o.computed_content_timeseries_metrics⟩
  else if attr = "content_timeseries_metrics" then
    ⟨o.timeseries_metrics, o.computed_timeseries_metrics, v,
      o.computed_content_timeseries_metrics⟩
  else
    ⟨o.timeseries_metrics, o.computed_timeseries_metrics,
      o.content_timeseries_metrics, v⟩

/-- The class-level attributes that the two concrete subclasses of `TSQuery`
override: table name, id column, calendar function and the names of the two
org catalog attributes. -/
structure TSQueryClass where
  table : String
  id_col : String
  cal_fx : String
  metrics_attr : String
  computed_metrics_attr : String
deriving DecidableEq, Repr

/-- `class ContentMetricTimeseries(TSQuery)`. -/
def ContentMetricTimeseries : TSQueryClass :=
  ⟨"content_metric_timeseries", "content_item_id", "content_metric_calendar",
    "content_timeseries_metrics", "computed_content_timeseries_metrics"⟩

/-- `class OrgMetricTimeseries(TSQuery)`. -/
def OrgMetricTimeseries : TSQueryClass :=
  ⟨"org_metric_timeseries", "org_id", "org_metric_calendar",
    "timeseries_metrics", "computed_timeseries_metrics"⟩

/-- The `ids` constructor argument: Python allows a bare id or a list. -/
inductive PyIds where
  | int (i : Int)
  | list (l : List Int)
deriving DecidableEq, Repr

/-- The `select` / `exclude` keyword arguments: a bare string or a list of
strings (for `select`, the string `"*"` is the select-all sentinel). -/
inductive PySel where
  | str (s : String)
  | list (l : List String)
deriving DecidableEq, Repr

/-- `if not isinstance(x, list): x = [x]` -/
def PySel.asList : PySel → List String
  | PySel.str s => [s]
  | PySel.list l => l

/-- Python truthiness of an optional date string (`None` and `""` are falsy). -/
def pyTruthy : Option String → Bool
  | none => false
  | some s => s != ""

/-- The keyword arguments of `TSQuery.__init__`, with one field per
`kw.get` call in the source. -/
structure KW where
  select : PySel
  exclude : PySel
  unit : String
  sparse : Bool
  sig_digits : Nat
  group_by_id : Bool
  rm_nulls : Bool
  time_since_start : Bool
  transform : Option String
  before : Option String
  after : Option String
deriving DecidableEq, Repr

/-- The `kw.get` defaults of `TSQuery.__init__`
(`select="*"`, `exclude=[]`, `unit=min_unit`, `sparse=True`, `sig_digits=2`,
`group_by_id=True`, `rm_nulls=False`, `time_since_start=False`,
`transform=None`, `before=None`, `after=None`). -/
def KW.default : KW :=
  ⟨PySel.str "*", PySel.list [], "hour", true, 2, true, false, false, none, none, none⟩

def KW.withSelect (k : KW) (v : PySel) : KW :=
  ⟨v, k.exclude, k.unit, k.sparse, k.sig_digits, k.group_by_id, k.rm_nulls,
    k.time_since_start, k.transform, k.before, k.after⟩

def KW.withExclude (k : KW) (v : PySel) : KW :=
  ⟨k.select, v, k.unit, k.sparse, k.sig_digits, k.group_by_id, k.rm_nulls,
    k.time_since_start, k.transform, k.before, k.after⟩

def KW.withUnit (k : KW) (v : String) : KW :=
  ⟨k.select, k.exclude, v, k.sparse, k.sig_digits, k.group_by_id, k.rm_nulls,
    k.time_since_start, k.transform, k.before, k.after⟩

def KW.withSparse (k : KW) (v : Bool) : KW :=
  ⟨k.select, k.exclude, k.unit, v, k.sig_digits, k.group_by_id, k.rm_nulls,
    k.time_since_start, k.transform, k.before, k.after⟩

def KW.withGroup (k : KW) (v : Bool) : KW :=
  ⟨k.select, k.exclude, k.unit, k.sparse, k.sig_digits, v, k.rm_nulls,
    k.time_since_start, k.transform, k.before, k.after⟩

def KW.withTransform (k : KW) (v : Option String) : KW :=
  ⟨k.select, k.exclude, k.unit, k.sparse, k.sig_digits, k.group_by_id, k.rm_nulls,
    k.time_since_start, v, k.before, k.after⟩

/-- The state of a `TSQuery` instance after `__init__` has run
(`select_metrics` and `format_dates` included).  `cls` carries the
subclass-level attributes. -/
structure TSQuery where
  cls : TSQueryClass
  ids : List Int
  select : PySel
  exclude : List String
  unit : String
  sparse : Bool
  sig_digits : Nat
  group_by_id : Bool
  rm_nulls : Bool
  time_since_start : Bool
  transform : Option String
  before : Option String
  after : Option String
  metrics : List MetricDef
  computed_metrics : List MetricDef
  filter_dates : Bool
deriving DecidableEq, Repr

/-- Class attributes of `TSQuery` that no subclass overrides. -/
def TSQuery.date_col : String := "datetime"

def TSQuery.metrics_col : String := "metrics"

def TSQuery.init_table : String := "init"

def TSQuery.sparse_table : String := "sparse"

def TSQuery.min_unit : String := "hour"

/-- The narrowing loop of `select_metrics`: when `select` is not the `"*"`
sentinel, keep exactly the metrics whose name is in the (wrapped) select
list; Python 2's `keys()` snapshot makes the pop loop this filter. -/
def TSQuery.select_narrow (select : PySel) (l : List MetricDef) : List MetricDef :=
  match select with
  | PySel.str s =>
    if s = "*" then l else l.filter (fun m => List.contains [s] m.name)
  | PySel.list ls => l.filter (fun m => List.contains ls m.name)

/-- The final value of `self.select` after `select_metrics`: a bare
non-sentinel string is wrapped into a singleton list. -/
def TSQuery.select_wrap (select : PySel) : PySel :=
  match select with
  | PySel.str s => if s = "*" then PySel.str s else PySel.list [s]
  | PySel.list ls => PySel.list ls

/-- The exclusion loop of `select_metrics`: run only when the (wrapped)
exclude list is non-empty, dropping every metric whose name it holds. -/
def TSQuery.exclude_drop (excl : List String) (l : List MetricDef) : List MetricDef :=
  if excl.length != 0 then l.filter (fun m => !(List.contains excl m.name)) else l

/-- `TSQuery.select_metrics`: narrow by `select`, then drop the excluded
names.  Returns the final values of `self.select`, `self.exclude`,
`self.metrics`, `self.computed_metrics`. -/
def TSQuery.select_metrics_fn (select exclude : PySel)
    (metrics computed : List MetricDef) :
    PySel × List String × List MetricDef × List MetricDef :=
  let excl : List String := exclude.asList
  (TSQuery.select_wrap select, excl,
    TSQuery.exclude_drop excl (TSQuery.select_narrow select metrics),
    TSQuery.exclude_drop excl (TSQuery.select_narrow select computed))

/-- `TSQuery.__init__`: wrap a bare id into a list, read the two catalog
attributes from the org, apply `select_metrics`, and set `filter_dates`
(`format_date` is the identity on the string dates modelled here). -/
def TSQuery.init (cls : TSQueryClass) (org : Org) (ids0 : PyIds) (kw : KW) : TSQuery :=
  let ids : List Int := match ids0 with
    | PyIds.int i => [i]
    | PyIds.list l => l
  let metrics0 := org.getattrMetrics cls.metrics_attr
  let computed0 := org.getattrMetrics cls.computed_metrics_attr
  let r := TSQuery.select_metrics_fn kw.select kw.exclude metrics0 computed0
  let fd : Bool := pyTruthy kw.before || pyTruthy kw.after
  ⟨cls, ids, r.1, r.2.1, kw.unit, kw.sparse, kw.sig_digits, kw.group_by_id,
    kw.rm_nulls, kw.time_since_start, kw.transform, kw.before, kw.after,
    r.2.2.1, r.2.2.2, fd⟩

/-- Modelled from the spec: `self.metrics = getattr(org, self.metrics_attr)`
binds the catalog mapping itself, and `select_metrics` removes keys from it
in place with `pop`; the org's stored mappings after construction are
therefore the filtered mappings.  Returns the constructed query together
with the org as it stands after `__init__`. -/
def TSQuery.initWithOrg (cls : TSQueryClass) (org : Org) (ids0 : PyIds) (kw : KW) :
    TSQuery × Org :=
  let q := TSQuery.init cls org ids0 kw
  (q, (org.setattrMetrics cls.metrics_attr q.metrics).setattrMetrics
        cls.computed_metrics_attr q.computed_metrics)

/-- `TSQuery.ids_array`: `"ARRAY[{}]"` around the comma-joined ids. -/
def TSQuery.ids_array (q : TSQuery) : String :=
  "ARRAY[" ++ String.intercalate ", " (q.ids.map toString) ++ "]"

/-- `TSQuery.date_filter`: empty unless `filter_dates`; otherwise
`"AND "` followed by the `" AND "`-joined inclusive bound clauses, the
`before` clause first (each rendered with `"{} {} '{}'"`). -/
def TSQuery.date_filter (q : TSQuery) : String :=
  if !q.filter_dates then ""
  else
    let c1 : List String := match q.before with
      | some b => if b != "" then [TSQuery.date_col ++ " <= \x27" ++ b ++ "\x27"] else []
      | none => []
    let c2 : List String := match q.after with
      | some a => if a != "" then [TSQuery.date_col ++ " >= \x27" ++ a ++ "\x27"] else []
      | none => []
    "AND " ++ String.intercalate " AND " (c1 ++ c2)

/-- `TSQuery.select_json`: `"({metrics_col} ->> '{name}')::text::numeric"`. -/
def TSQuery.select_json (q : TSQuery) (m : MetricDef) : String :=
  "(" ++ TSQuery.metrics_col ++ " ->> \x27" ++ m.name ++ "\x27)::text::numeric"

/-- `TSQuery.select_simple`: `"{j} as {name}"`. -/
def TSQuery.select_simple (q : TSQuery) (m : MetricDef) : String :=
  q.select_json m ++ " as " ++ m.name

/-- `TSQuery.select_cumulative_to_count`:
`COALESCE({j} - lag({j}) OVER (PARTITION BY {id_col} ORDER BY {date_col} ASC), {j}) as {name}`
with the source template's embedded newlines and indentation. -/
def TSQuery.select_cumulative_to_count (q : TSQuery) (m : MetricDef) : String :=
  let j := q.select_json m
  "COALESCE(\n                    " ++ j ++ " - lag(" ++ j ++
    ") OVER (PARTITION BY " ++ q.cls.id_col ++ " ORDER BY " ++ TSQuery.date_col ++
    " ASC),\n                    " ++ j ++ ") as " ++ m.name

/-- `TSQuery.select_agg`: `"ROUND({agg_fx}({name}), {sig_digits}) as {name}"`. -/
def TSQuery.select_agg (q : TSQuery) (m : MetricDef) : String :=
  "ROUND(" ++ m.agg_fx ++ "(" ++ m.name ++ "), " ++ toString q.sig_digits ++
    ") as " ++ m.name

/-- `TSQuery.select_non_sparse`: `"COALESCE({sparse_table}.{name}, 0) as {name}"`. -/
def TSQuery.select_non_sparse (q : TSQuery) (m : MetricDef) : String :=
  "COALESCE(" ++ TSQuery.sparse_table ++ "." ++ m.name ++ ", 0) as " ++ m.name

/-- `TSQuery.select_cumulative`:
`"sum({name}) OVER ({p} ORDER BY {date_col} ASC) AS {name}"` where `p` is
`"PARTITION BY {id_col}"`, emptied when `group_by_id` is false. -/
def TSQuery.select_cumulative (q : TSQuery) (m : MetricDef) : String :=
  let p := if !q.group_by_id then "" else "PARTITION BY " ++ q.cls.id_col
  "sum(" ++ m.name ++ ") OVER (" ++ p ++ " ORDER BY " ++ TSQuery.date_col ++
    " ASC) AS " ++ m.name

/-- The loop body of `TSQuery.init_select`: cumulative-kind metrics go
through `select_cumulative_to_count`, all others through `select_simple`. -/
def TSQuery.init_select_item (q : TSQuery) (m : MetricDef) : String :=
  if m.type == "cumulative" then q.select_cumulative_to_count m else q.select_simple m

/-- `TSQuery.init_select`: the `",\n"`-joined per-metric statements. -/
def TSQuery.init_select (q : TSQuery) : String :=
  String.intercalate ",\n" (q.metrics.map q.init_select_item)

/-- `TSQuery.agg_select`. -/
def TSQuery.agg_select (q : TSQuery) : String :=
  String.intercalate ",\n" (q.metrics.map q.select_agg)

/-- `TSQuery.non_sparse_select`. -/
def TSQuery.non_sparse_select (q : TSQuery) : String :=
  String.intercalate ",\n" (q.metrics.map q.select_non_sparse)

/-- The loop body of `TSQuery.cumulative_select`: `sum`-aggregated metrics
go through `select_cumulative`, all others are emitted as the bare name. -/
def TSQuery.cumulative_select_item (q : TSQuery) (m : MetricDef) : String :=
  if m.agg_fx == "sum" then q.select_cumulative m else m.name

/-- `TSQuery.cumulative_select`. -/
def TSQuery.cumulative_select (q : TSQuery) : String :=
  String.intercalate ",\n" (q.metrics.map q.cumulative_select_item)

/-- `init_id_col` of `TSQuery.init_kw`: `"{id_col},"` or empty. -/
def TSQuery.init_id_col (q : TSQuery) : String :=
  if !q.group_by_id then "" else q.cls.id_col ++ ","

/-- `TSQuery.init_query`, the source's triple-quoted template rendered
character for character. -/
def TSQuery.init_query (q : TSQuery) : String :=
  "SELECT\n                    " ++ q.init_id_col ++
    "\n                    date_trunc(\x27" ++ q.unit ++ "\x27, " ++
    TSQuery.date_col ++ ") as " ++ TSQuery.date_col ++
    ",\n                    " ++ q.init_select ++
    "\n                FROM " ++ q.cls.table ++
    "\n                    WHERE " ++ q.cls.id_col ++
    " IN (select unnest(" ++ q.ids_array ++ "))\n                    " ++
    q.date_filter ++ "\n            "

/-- `agg_id_col` of `TSQuery.agg_kw`: `"{id_col},"` or empty. -/
def TSQuery.agg_id_col (q : TSQuery) : String :=
  if !q.group_by_id then "" else q.cls.id_col ++ ","

/-- `agg_order_by` of `TSQuery.agg_kw`: `",{id_col}"` or empty. -/
def TSQuery.agg_order_by (q : TSQuery) : String :=
  if !q.group_by_id then "" else "," ++ q.cls.id_col

/-- `TSQuery.agg_query`. -/
def TSQuery.agg_query (q : TSQuery) : String :=
  "SELECT " ++ q.agg_id_col ++
    "\n                    date_trunc(\x27" ++ q.unit ++ "\x27, " ++
    TSQuery.date_col ++ ") as " ++ TSQuery.date_col ++
    ",\n                    " ++ q.agg_select ++
    "\n                FROM (" ++ q.init_query ++
    ") t1\n                GROUP BY " ++ q.agg_id_col ++ " " ++ TSQuery.date_col ++
    "\n                ORDER BY " ++ TSQuery.date_col ++ " " ++ q.agg_order_by ++
    " ASC\n            "

/-- `before` of `TSQuery.cal_kw`: `", '{before}'"` when truthy, else empty. -/
def TSQuery.cal_before (q : TSQuery) : String :=
  match q.before with
  | some b => if b != "" then ", \x27" ++ b ++ "\x27" else ""
  | none => ""

/-- `after` of `TSQuery.cal_kw`. -/
def TSQuery.cal_after (q : TSQuery) : String :=
  match q.after with
  | some a => if a != "" then ", \x27" ++ a ++ "\x27" else ""
  | none => ""

/-- `TSQuery.cal`: `"{cal_fx}('1 {unit}s', {ids_array} {after} {before})"`. -/
def TSQuery.cal (q : TSQuery) : String :=
  q.cls.cal_fx ++ "(\x271 " ++ q.unit ++ "s\x27, " ++ q.ids_array ++ " " ++
    q.cal_after ++ " " ++ q.cal_before ++ ")"

/-- `init_q` of `TSQuery.non_sparse_kw`: the init query when the unit is the
native one, else the aggregation query. -/
def TSQuery.non_sparse_init_q (q : TSQuery) : String :=
  if q.unit == TSQuery.min_unit then q.init_query else q.agg_query

/-- `cal_id_col1` of `TSQuery.non_sparse_kw`: `"{id_col},\n"` or empty. -/
def TSQuery.cal_id_col1 (q : TSQuery) : String :=
  if !q.group_by_id then "" else q.cls.id_col ++ ",\n"

/-- `cal_id_col2` of `TSQuery.non_sparse_kw`: `"cal.{cal_id_col1}"` or empty. -/
def TSQuery.cal_id_col2 (q : TSQuery) : String :=
  if !q.group_by_id then "" else "cal." ++ (q.cls.id_col ++ ",\n")

/-- `cal_id_join` of `TSQuery.non_sparse_kw`:
`"AND cal.{id_col} = {sparse_table}.{id_col}"` or empty. -/
def TSQuery.cal_id_join (q : TSQuery) : String :=
  if !q.group_by_id then ""
  else "AND cal." ++ q.cls.id_col ++ " = " ++ TSQuery.sparse_table ++ "." ++ q.cls.id_col

/-- `cal_order_by` of `TSQuery.non_sparse_kw`: `", cal.{id_col}"` or empty. -/
def TSQuery.cal_order_by (q : TSQuery) : String :=
  if !q.group_by_id then "" else ", cal." ++ q.cls.id_col

/-- `cal_date_select` of `TSQuery.non_sparse_kw`: the date column, or
`distinct({date_col})` when not grouping by id. -/
def TSQuery.cal_date_select (q : TSQuery) : String :=
  if !q.group_by_id then "distinct(" ++ TSQuery.date_col ++ ")" else TSQuery.date_col

/-- `TSQuery.non_sparse_query`. -/
def TSQuery.non_sparse_query (q : TSQuery) : String :=
  "WITH " ++ TSQuery.sparse_table ++ " as (\n                    " ++
    q.non_sparse_init_q ++
    "\n                ),\n                cal as (\n                    select\n                        " ++
    q.cal_id_col1 ++ "\n                        " ++ q.cal_date_select ++
    "\n                        from " ++ q.cal ++
    "\n                )\n                SELECT\n                       " ++
    q.cal_id_col2 ++ "\n                       cal." ++ TSQuery.date_col ++
    ",\n                       " ++ q.non_sparse_select ++
    "\n                FROM cal\n                LEFT JOIN " ++ TSQuery.sparse_table ++
    " ON\n                    cal." ++ TSQuery.date_col ++ " = " ++
    TSQuery.sparse_table ++ "." ++ TSQuery.date_col ++ "\n                    " ++
    q.cal_id_join ++ "\n                ORDER BY cal." ++ TSQuery.date_col ++ " " ++
    q.cal_order_by ++ " ASC\n            "

/-- `init_q` of `TSQuery.cumulative_kw`: the init query when sparse at the
native hourly unit grouped by id, the aggregation query when sparse
otherwise, and the non-sparse query when not sparse. -/
def TSQuery.cumulative_init_q (q : TSQuery) : String :=
  if q.sparse && (q.unit == "hour") && q.group_by_id then q.init_query
  else if q.sparse then q.agg_query
  else q.non_sparse_query

/-- `_id_col` of `TSQuery.cumulative_kw`: `"{id_col},"` or empty. -/
def TSQuery.cumulative_id_col (q : TSQuery) : String :=
  if !q.group_by_id then "" else q.cls.id_col ++ ","

/-- `TSQuery.cumulative_query`. -/
def TSQuery.cumulative_query (q : TSQuery) : String :=
  " SELECT\n                    " ++ TSQuery.date_col ++
    ",\n                    " ++ q.cumulative_id_col ++
    "\n                    " ++ q.cumulative_select ++
    "\n                FROM (\n                    " ++ q.cumulative_init_q ++
    "\n                ) t2\n            "

/-- Python truthiness of `self.transform` as tested by `not self.transform`. -/
def TSQuery.transform_falsy (q : TSQuery) : Bool :=
  match q.transform with
  | none => true
  | some s => s == ""

/-- `TSQuery.query`: the first-match chain of the four plans; a transform
other than `cumulative` falls off the end of the chain, which in Python
returns `None`. -/
def TSQuery.query (q : TSQuery) : Option String :=
  if q.sparse && (q.unit == TSQuery.min_unit) && q.transform_falsy then
    some q.init_query
  else if q.sparse && q.transform_falsy then
    some q.agg_query
  else if !q.sparse && q.transform_falsy then
    some q.non_sparse_query
  else if q.transform == some "cumulative" then
    some q.cumulative_query
  else
    none

/-! ## Concrete fixtures used to exercise the theorems -/

/-- A count-kind, sum-aggregated metric. -/
def mPv : MetricDef := ⟨"pageviews", "count", "sum"⟩

/-- A cumulative-kind, max-aggregated metric. -/
def mFl : MetricDef := ⟨"followers", "cumulative", "max"⟩

/-- A computed metric with the same kind and aggregation as `mPv`. -/
def mCq : MetricDef := ⟨"quality", "count", "sum"⟩

/-- An org whose stored and content catalogs both hold `mPv` and `mFl`. -/
def orgEx : Org := ⟨[mPv, mFl], [], [mPv, mFl], []⟩

/-! ## Per-claim fixture instances -/

def c1qA : TSQuery := TSQuery.init OrgMetricTimeseries orgEx (PyIds.list [1]) KW.default

def c1qB : TSQuery :=
  TSQuery.init OrgMetricTimeseries orgEx (PyIds.list [1]) (KW.default.withUnit "day")

def c1qC : TSQuery :=
  TSQuery.init OrgMetricTimeseries orgEx (PyIds.list [1]) (KW.default.withSparse false)

def c1qD : TSQuery :=
  TSQuery.init OrgMetricTimeseries orgEx (PyIds.list [1])
    (KW.default.withTransform (some "cumulative"))

def c1qE : TSQuery :=
  TSQuery.init OrgMetricTimeseries orgEx (PyIds.list [1])
    ((KW.default.withTransform (some "cumulative")).withUnit "day")

def c1qF : TSQuery :=
  TSQuery.init OrgMetricTimeseries orgEx (PyIds.list [1])
    ((KW.default.withTransform (some "cumulative")).withSparse false)

def c2q : TSQuery :=
  TSQuery.init OrgMetricTimeseries orgEx (PyIds.list []) (KW.default.withUnit "decade")

def c2t : TSQuery :=
  TSQuery.init OrgMetricTimeseries orgEx (PyIds.list [1])
    (KW.default.withTransform (some "avg"))

def c4qG : TSQuery :=
  TSQuery.init OrgMetricTimeseries orgEx (PyIds.list [1])
    (KW.default.withTransform (some "cumulative"))

def c4qN : TSQuery :=
  TSQuery.init OrgMetricTimeseries orgEx (PyIds.list [1])
    ((KW.default.withTransform (some "cumulative")).withGroup false)

def c5qH : TSQuery :=
  TSQuery.init OrgMetricTimeseries orgEx (PyIds.list [1]) (KW.default.withSparse false)

def c5qD : TSQuery :=
  TSQuery.init OrgMetricTimeseries orgEx (PyIds.list [1])
    ((KW.default.withSparse false).withUnit "day")

def c5qN : TSQuery :=
  TSQuery.init OrgMetricTimeseries orgEx (PyIds.list [1])
    (((KW.default.withSparse false).withUnit "day").withGroup false)

def c6kw : KW :=
  (KW.default.withSelect (PySel.list ["pageviews", "followers"])).withExclude
    (PySel.list ["followers"])

def c7kw : KW := KW.default.withSelect (PySel.list ["pageviews"])

def orgC8 : Org := ⟨[mPv], [mCq], [mPv], [mCq]⟩

def c8q : TSQuery := TSQuery.init OrgMetricTimeseries orgC8 (PyIds.list [1]) KW.default

/-- Replace only the `computed_metrics` field of a query state. -/
def TSQuery.setComputed (q : TSQuery) (c : List MetricDef) : TSQuery :=
  ⟨q.cls, q.ids, q.select, q.exclude, q.unit, q.sparse, q.sig_digits, q.group_by_id,
    q.rm_nulls, q.time_since_start, q.transform, q.before, q.after, q.metrics, c,
    q.filter_dates⟩

def orgC9 : Org := ⟨[mPv, mFl], [mCq], [mPv, mFl], [mCq]⟩

def c9p : TSQuery := TSQuery.init OrgMetricTimeseries orgEx (PyIds.list [1]) KW.default

def c9r : TSQuery := TSQuery.init OrgMetricTimeseries orgC9 (PyIds.list [1]) KW.default

def c10a : TSQuery := TSQuery.init OrgMetricTimeseries orgEx (PyIds.list [1]) KW.default

def c10b : TSQuery :=
  TSQuery.init OrgMetricTimeseries orgEx (PyIds.list [1])
    (KW.default.withSelect (PySel.list ["*"]))

/-! ## Helper lemmas -/

/-- String concatenation is associative (the source templates are
concatenations, so decompositions below re-associate freely). -/
theorem string_append_assoc (a b c : String) : a ++ b ++ c = a ++ (b ++ c) := by
  cases a with
  | mk la =>
    cases b with
    | mk lb =>
      cases c with
      | mk lc =>
        show String.mk (la ++ lb ++ lc) = String.mk (la ++ (lb ++ lc))
        rw [List.append_assoc]

theorem init_transform (cls : TSQueryClass) (org : Org) (ids0 : PyIds) (kw : KW) :
    (TSQuery.init cls org ids0 kw).transform = kw.transform := rfl

theorem init_sparse (cls : TSQueryClass) (org : Org) (ids0 : PyIds) (kw : KW) :
    (TSQuery.init cls org ids0 kw).sparse = kw.sparse := rfl

theorem init_unit (cls : TSQueryClass) (org : Org) (ids0 : PyIds) (kw : KW) :
    (TSQuery.init cls org ids0 kw).unit = kw.unit := rfl

/-! ## C1: plan selection -/

/-- C1: the compiled top-level query is chosen by first-match decision
order: sparse at the minimum unit with no transform yields the Init query
alone; sparse at a coarser unit with no transform yields the Aggregate query,
which wraps Init; non-sparse with no transform yields the Densify query;
transform `cumulative` yields the Cumulative query, whose inner relation is
Init when sparse, unit `hour` and `group_by_id` all hold, Aggregate when
sparse at a coarser unit, and Densify when not sparse. -/
theorem C1_plan_decision_order (q : TSQuery) :
    (q.sparse = true → q.unit = TSQuery.min_unit → q.transform = none →
      q.query = some q.init_query) ∧
    (q.sparse = true → q.unit ≠ TSQuery.min_unit → q.transform = none →
      q.query = some q.agg_query ∧ ∃ a b, q.agg_query = a ++ q.init_query ++ b) ∧
    (q.sparse = false → q.transform = none →
      q.query = some q.non_sparse_query) ∧
    (q.transform = some "cumulative" →
      q.query = some q.cumulative_query ∧
      (∃ a b, q.cumulative_query = a ++ q.cumulative_init_q ++ b) ∧
      (q.sparse = true → q.unit = "hour" → q.group_by_id = true →
        q.cumulative_init_q = q.init_query) ∧
      (q.sparse = true → q.unit ≠ "hour" →
        q.cumulative_init_q = q.agg_query) ∧
      (q.sparse = false → q.cumulative_init_q = q.non_sparse_query)) := by
  refine ⟨?_, ?_, ?_, ?_⟩
  · intro hs hu ht
    simp [TSQuery.query, TSQuery.transform_falsy, hs, hu, ht]
  · intro hs hu ht
    constructor
    · simp [TSQuery.query, TSQuery.transform_falsy, hs, hu, ht]
    · refine ⟨"SELECT " ++ q.agg_id_col ++
        "\n                    date_trunc(\x27" ++ q.unit ++ "\x27, " ++
        TSQuery.date_col ++ ") as " ++ TSQuery.date_col ++
        ",\n                    " ++ q.agg_select ++
        "\n                FROM (",
        ") t1\n                GROUP BY " ++ q.agg_id_col ++ " " ++
        TSQuery.date_col ++ "\n                ORDER BY " ++ TSQuery.date_col ++
        " " ++ q.agg_order_by ++ " ASC\n            ", ?_⟩
      simp [TSQuery.agg_query, string_append_assoc]
  · intro hs ht
    simp [TSQuery.query, TSQuery.transform_falsy, hs, ht]
  · intro ht
    refine ⟨?_, ?_, ?_, ?_, ?_⟩
    · simp [TSQuery.query, TSQuery.transform_falsy, ht]
    · refine ⟨" SELECT\n                    " ++ TSQuery.date_col ++
        ",\n                    " ++ q.cumulative_id_col ++
        "\n                    " ++ q.cumulative_select ++
        "\n                FROM (\n                    ",
        "\n                ) t2\n            ", ?_⟩
      simp [TSQuery.cumulative_query, string_append_assoc]
    · intro hs hu hg
      simp [TSQuery.cumulative_init_q, hs, hu, hg]
    · intro hs hu
      simp [TSQuery.cumulative_init_q, hs, hu]
    · intro hs
      simp [TSQuery.cumulative_init_q, hs]

/-- C1, exercised: one closed instance per branch of the decision order. -/
theorem C1_plan_decision_order_witness :
    c1qA.query = some c1qA.init_query ∧
    c1qB.query = some c1qB.agg_query ∧
    c1qC.query = some c1qC.non_sparse_query ∧
    (c1qD.query = some c1qD.cumulative_query ∧
      c1qD.cumulative_init_q = c1qD.init_query) ∧
    c1qE.cumulative_init_q = c1qE.agg_query ∧
    c1qF.cumulative_init_q = c1qF.non_sparse_query := by
  refine ⟨(C1_plan_decision_order c1qA).1 rfl rfl rfl,
    ((C1_plan_decision_order c1qB).2.1 rfl (by decide) rfl).1,
    (C1_plan_decision_order c1qC).2.2.1 rfl rfl,
    ⟨((C1_plan_decision_order c1qD).2.2.2 rfl).1,
      ((C1_plan_decision_order c1qD).2.2.2 rfl).2.2.1 rfl rfl rfl⟩,
    ((C1_plan_decision_order c1qE).2.2.2 rfl).2.2.2.1 rfl (by decide),
    ((C1_plan_decision_order c1qF).2.2.2 rfl).2.2.2.2 rfl⟩

/-! ## C2: input validation -/

/-- C2 counterexample: an empty entity-id set combined with a unit outside
the supported enumeration is not rejected — the constructor succeeds and a
top-level query text is still compiled; and a transform outside
`{none, cumulative}` silently produces no query at all (Python `None`)
instead of raising a configuration error. -/
theorem C2_cex :
    c2q.ids = [] ∧ c2q.unit = "decade" ∧ (c2q.query).isSome = true ∧
      c2t.query = none := by
  refine ⟨rfl, rfl, rfl, rfl⟩

/-- C2 amended: the constructor performs no validation.  A transform outside
the supported enumeration makes `query` fall off the decision chain and
return `None` (no error is raised and nothing is compiled), while an empty
entity-id set or an arbitrary unknown unit still compiles query text
normally. -/
theorem C2_no_validation :
    (∀ (cls : TSQueryClass) (org : Org) (ids0 : PyIds) (kw : KW) (t : String),
      kw.transform = some t → t ≠ "cumulative" → t ≠ "" →
      (TSQuery.init cls org ids0 kw).query = none) ∧
    (∀ (cls : TSQueryClass) (org : Org) (kw : KW),
      kw.transform = none →
      ((TSQuery.init cls org (PyIds.list []) kw).query).isSome = true) := by
  constructor
  · intro cls org ids0 kw t h1 h2 h3
    have ht : (TSQuery.init cls org ids0 kw).transform = some t := by
      rw [init_transform, h1]
    simp [TSQuery.query, TSQuery.transform_falsy, ht, h2, h3]
  · intro cls org kw h
    have ht : (TSQuery.init cls org (PyIds.list []) kw).transform = none := by
      rw [init_transform, h]
    cases hs : (TSQuery.init cls org (PyIds.list []) kw).sparse with
    | false => simp [TSQuery.query, TSQuery.transform_falsy, ht, hs]
    | true =>
      cases hu : ((TSQuery.init cls org (PyIds.list []) kw).unit == TSQuery.min_unit) with
      | false => simp [TSQuery.query, TSQuery.transform_falsy, ht, hs, hu]
      | true => simp [TSQuery.query, TSQuery.transform_falsy, ht, hs, hu]

/-- C2 amended, exercised at concrete inputs. -/
theorem C2_no_validation_witness :
    (TSQuery.init OrgMetricTimeseries orgEx (PyIds.list [1])
      (KW.default.withTransform (some "roll_avg"))).query = none ∧
    ((TSQuery.init ContentMetricTimeseries orgEx (PyIds.list []) KW.default).query).isSome
      = true :=
  ⟨C2_no_validation.1 _ _ _ _ "roll_avg" rfl (by decide) (by decide),
    C2_no_validation.2 _ _ _ rfl⟩

/-! ## C3: the Init stage's per-metric select statements -/

/-- C3: in the Init stage, a metric of kind `cumulative` is converted to a
per-period delta `raw - lag(raw)` over a window partitioned by the entity id
column and ordered by time ascending, COALESCEd to the raw value when no
prior row exists; a metric of kind `count` is selected with its raw value
unchanged. -/
theorem C3_init_stage_select (q : TSQuery) (m : MetricDef) :
    (m.type = "cumulative" →
      q.init_select_item m =
        "COALESCE(\n                    " ++
          ("(" ++ TSQuery.metrics_col ++ " ->> \x27" ++ m.name ++ "\x27)::text::numeric") ++
          " - lag(" ++
          ("(" ++ TSQuery.metrics_col ++ " ->> \x27" ++ m.name ++ "\x27)::text::numeric") ++
          ") OVER (PARTITION BY " ++ q.cls.id_col ++ " ORDER BY " ++ TSQuery.date_col ++
          " ASC),\n                    " ++
          ("(" ++ TSQuery.metrics_col ++ " ->> \x27" ++ m.name ++ "\x27)::text::numeric") ++
          ") as " ++ m.name) ∧
    (m.type = "count" →
      q.init_select_item m =
        "(" ++ TSQuery.metrics_col ++ " ->> \x27" ++ m.name ++ "\x27)::text::numeric" ++
          " as " ++ m.name) := by
  constructor
  · intro h
    simp [TSQuery.init_select_item, h, TSQuery.select_cumulative_to_count,
      TSQuery.select_json]
  · intro h
    simp [TSQuery.init_select_item, h, TSQuery.select_simple, TSQuery.select_json]

/-- C3, exercised at the two fixture metrics. -/
theorem C3_init_stage_select_witness :
    c1qA.init_select_item mFl =
      "COALESCE(\n                    (metrics ->> \x27followers\x27)::text::numeric - lag((metrics ->> \x27followers\x27)::text::numeric) OVER (PARTITION BY org_id ORDER BY datetime ASC),\n                    (metrics ->> \x27followers\x27)::text::numeric) as followers" ∧
    c1qA.init_select_item mPv =
      "(metrics ->> \x27pageviews\x27)::text::numeric as pageviews" := by
  have h1 := (C3_init_stage_select c1qA mFl).1 rfl
  have h2 := (C3_init_stage_select c1qA mPv).2 rfl
  constructor
  · rw [h1]; decide
  · rw [h2]; decide

/-! ## C4: the Cumulative stage's per-metric select statements -/

/-- C4: in the Cumulative stage's select list a metric is replaced by a
running-total window sum ordered by the date column — partitioned by the
entity id column exactly when `group_by_id` is true, with no partition
otherwise — if and only if its aggregation function is `sum`; a metric with
any other aggregation passes through unchanged as a bare column reference. -/
theorem C4_cumulative_sum_only (q : TSQuery) (m : MetricDef) :
    (m.agg_fx = "sum" → q.group_by_id = true →
      q.cumulative_select_item m =
        "sum(" ++ m.name ++ ") OVER (" ++ ("PARTITION BY " ++ q.cls.id_col) ++
          " ORDER BY " ++ TSQuery.date_col ++ " ASC) AS " ++ m.name) ∧
    (m.agg_fx = "sum" → q.group_by_id = false →
      q.cumulative_select_item m =
        "sum(" ++ m.name ++ ") OVER (" ++ " ORDER BY " ++ TSQuery.date_col ++
          " ASC) AS " ++ m.name) ∧
    (m.agg_fx ≠ "sum" → q.cumulative_select_item m = m.name) := by
  refine ⟨?_, ?_, ?_⟩
  · intro h hg
    simp [TSQuery.cumulative_select_item, h, TSQuery.select_cumulative, hg]
  · intro h hg
    simp [TSQuery.cumulative_select_item, h, TSQuery.select_cumulative, hg]
  · intro h
    simp [TSQuery.cumulative_select_item, h]

/-- C4, exercised: the sum-aggregated fixture gets the window (with and
without the partition), the max-aggregated fixture passes through bare. -/
theorem C4_cumulative_sum_only_witness :
    c4qG.cumulative_select_item mPv =
      "sum(pageviews) OVER (PARTITION BY org_id ORDER BY datetime ASC) AS pageviews" ∧
    c4qN.cumulative_select_item mPv =
      "sum(pageviews) OVER ( ORDER BY datetime ASC) AS pageviews" ∧
    c4qG.cumulative_select_item mFl = "followers" := by
  have h1 := (C4_cumulative_sum_only c4qG mPv).1 rfl rfl
  have h2 := (C4_cumulative_sum_only c4qN mPv).2.1 rfl rfl
  have h3 := (C4_cumulative_sum_only c4qG mFl).2.2 (by decide)
  refine ⟨?_, ?_, ?_⟩
  · rw [h1]; decide
  · rw [h2]; decide
  · rw [h3]; decide

/-! ## C5: the Densify (non-sparse) stage -/

/-- C5: with `sparse=false` the Densify query wraps the Init query directly
when the unit is the native minimum, else the Aggregate query; it left-joins
that relation (the CTE named `sparse`) to the generated calendar matching on
the date column, additionally on the entity id column exactly when
`group_by_id` is true; and every metric is selected through
`COALESCE({sparse}.{name}, 0)` so missing buckets read as zero. -/
theorem C5_densify (q : TSQuery) (m : MetricDef) :
    (q.unit = TSQuery.min_unit → q.non_sparse_init_q = q.init_query) ∧
    (q.unit ≠ TSQuery.min_unit → q.non_sparse_init_q = q.agg_query) ∧
    (∃ a b, q.non_sparse_query = a ++ q.non_sparse_init_q ++ b) ∧
    (∃ a b, q.non_sparse_query =
      a ++ ("\n                FROM cal\n                LEFT JOIN " ++
        TSQuery.sparse_table ++ " ON\n                    cal." ++ TSQuery.date_col ++
        " = " ++ TSQuery.sparse_table ++ "." ++ TSQuery.date_col ++
        "\n                    " ++ q.cal_id_join) ++ b) ∧
    (q.group_by_id = true →
      q.cal_id_join =
        "AND cal." ++ q.cls.id_col ++ " = " ++ TSQuery.sparse_table ++ "." ++
          q.cls.id_col) ∧
    (q.group_by_id = false → q.cal_id_join = "") ∧
    (q.select_non_sparse m =
      "COALESCE(" ++ TSQuery.sparse_table ++ "." ++ m.name ++ ", 0) as " ++ m.name) := by
  refine ⟨?_, ?_, ?_, ?_, ?_, ?_, ?_⟩
  · intro h
    simp [TSQuery.non_sparse_init_q, h]
  · intro h
    simp [TSQuery.non_sparse_init_q, h]
  · refine ⟨"WITH " ++ TSQuery.sparse_table ++ " as (\n                    ",
      "\n                ),\n                cal as (\n                    select\n                        " ++
        q.cal_id_col1 ++ "\n                        " ++ q.cal_date_select ++
        "\n                        from " ++ q.cal ++
        "\n                )\n                SELECT\n                       " ++
        q.cal_id_col2 ++ "\n                       cal." ++ TSQuery.date_col ++
        ",\n                       " ++ q.non_sparse_select ++
        "\n                FROM cal\n                LEFT JOIN " ++ TSQuery.sparse_table ++
        " ON\n                    cal." ++ TSQuery.date_col ++ " = " ++
        TSQuery.sparse_table ++ "." ++ TSQuery.date_col ++ "\n                    " ++
        q.cal_id_join ++ "\n                ORDER BY cal." ++ TSQuery.date_col ++ " " ++
        q.cal_order_by ++ " ASC\n            ", ?_⟩
    simp [TSQuery.non_sparse_query, string_append_assoc]
  · refine ⟨"WITH " ++ TSQuery.sparse_table ++ " as (\n                    " ++
      q.non_sparse_init_q ++
      "\n                ),\n                cal as (\n                    select\n                        " ++
      q.cal_id_col1 ++ "\n                        " ++ q.cal_date_select ++
      "\n                        from " ++ q.cal ++
      "\n                )\n                SELECT\n                       " ++
      q.cal_id_col2 ++ "\n                       cal." ++ TSQuery.date_col ++
      ",\n                       " ++ q.non_sparse_select,
      "\n                ORDER BY cal." ++ TSQuery.date_col ++ " " ++
        q.cal_order_by ++ " ASC\n            ", ?_⟩
    simp [TSQuery.non_sparse_query, string_append_assoc]
  · intro h
    simp [TSQuery.cal_id_join, h]
  · intro h
    simp [TSQuery.cal_id_join, h]
  · simp [TSQuery.select_non_sparse]

/-- C5, exercised at concrete non-sparse queries. -/
theorem C5_densify_witness :
    c5qH.non_sparse_init_q = c5qH.init_query ∧
    c5qD.non_sparse_init_q = c5qD.agg_query ∧
    c5qD.cal_id_join = "AND cal.org_id = sparse.org_id" ∧
    c5qN.cal_id_join = "" ∧
    c5qD.select_non_sparse mPv = "COALESCE(sparse.pageviews, 0) as pageviews" := by
  refine ⟨(C5_densify c5qH mPv).1 rfl,
    (C5_densify c5qD mPv).2.1 (by decide), ?_,
    (C5_densify c5qN mPv).2.2.2.2.2.1 rfl, ?_⟩
  · have h := (C5_densify c5qD mPv).2.2.2.2.1 rfl
    rw [h]; decide
  · have h := (C5_densify c5qD mPv).2.2.2.2.2.2
    rw [h]; decide

/-! ## C6: select-then-exclude metric narrowing -/

/-- Membership after the `select` narrowing phase. -/
theorem select_narrow_mem (select : PySel) (l : List MetricDef) (m : MetricDef) :
    m ∈ TSQuery.select_narrow select l ↔
      m ∈ l ∧ (select = PySel.str "*" ∨ m.name ∈ select.asList) := by
  cases select with
  | str s =>
    by_cases hs : s = "*" <;>
      simp [TSQuery.select_narrow, PySel.asList, hs]
  | list ls =>
    simp [TSQuery.select_narrow, PySel.asList]

/-- Membership after the `exclude` phase. -/
theorem exclude_drop_mem (excl : List String) (l : List MetricDef) (m : MetricDef) :
    m ∈ TSQuery.exclude_drop excl l ↔ m ∈ l ∧ m.name ∉ excl := by
  cases excl with
  | nil => simp [TSQuery.exclude_drop]
  | cons x xs => simp [TSQuery.exclude_drop, List.mem_filter]

/-- Membership in the maps produced by `select_metrics`: a metric survives
exactly when it was in the input map, its name passes the `select`
narrowing (skipped for the `"*"` sentinel), and its name is not excluded. -/
theorem select_metrics_fn_mem (select exclude : PySel)
    (metrics computed : List MetricDef) (m : MetricDef) :
    (m ∈ (TSQuery.select_metrics_fn select exclude metrics computed).2.2.1 ↔
      m ∈ metrics ∧ (select = PySel.str "*" ∨ m.name ∈ select.asList) ∧
        m.name ∉ exclude.asList) ∧
    (m ∈ (TSQuery.select_metrics_fn select exclude metrics computed).2.2.2 ↔
      m ∈ computed ∧ (select = PySel.str "*" ∨ m.name ∈ select.asList) ∧
        m.name ∉ exclude.asList) := by
  constructor <;>
    simp [TSQuery.select_metrics_fn, exclude_drop_mem, select_narrow_mem, and_assoc]

/-- C6: metric selection applies `select` first and `exclude` second: when
`select` is not `"*"`, only listed names remain in the base and computed
maps (unknown names are silently absent, not an error); afterwards every
name in `exclude` is removed from both maps regardless of whether it
survived selection, so a name in both `select` and `exclude` is absent. -/
theorem C6_select_then_exclude (cls : TSQueryClass) (org : Org) (ids0 : PyIds)
    (kw : KW) (m : MetricDef) :
    (kw.select ≠ PySel.str "*" →
      ((m ∈ (TSQuery.init cls org ids0 kw).metrics ↔
        m ∈ org.getattrMetrics cls.metrics_attr ∧ m.name ∈ kw.select.asList ∧
          m.name ∉ kw.exclude.asList) ∧
       (m ∈ (TSQuery.init cls org ids0 kw).computed_metrics ↔
        m ∈ org.getattrMetrics cls.computed_metrics_attr ∧ m.name ∈ kw.select.asList ∧
          m.name ∉ kw.exclude.asList))) ∧
    (kw.select = PySel.str "*" →
      ((m ∈ (TSQuery.init cls org ids0 kw).metrics ↔
        m ∈ org.getattrMetrics cls.metrics_attr ∧ m.name ∉ kw.exclude.asList) ∧
       (m ∈ (TSQuery.init cls org ids0 kw).computed_metrics ↔
        m ∈ org.getattrMetrics cls.computed_metrics_attr ∧
          m.name ∉ kw.exclude.asList))) ∧
    (m.name ∈ kw.exclude.asList →
      m ∉ (TSQuery.init cls org ids0 kw).metrics ∧
      m ∉ (TSQuery.init cls org ids0 kw).computed_metrics) := by
  have hm : (TSQuery.init cls org ids0 kw).metrics =
      (TSQuery.select_metrics_fn kw.select kw.exclude
        (org.getattrMetrics cls.metrics_attr)
        (org.getattrMetrics cls.computed_metrics_attr)).2.2.1 := rfl
  have hc : (TSQuery.init cls org ids0 kw).computed_metrics =
      (TSQuery.select_metrics_fn kw.select kw.exclude
        (org.getattrMetrics cls.metrics_attr)
        (org.getattrMetrics cls.computed_metrics_attr)).2.2.2 := rfl
  have key := select_metrics_fn_mem kw.select kw.exclude
    (org.getattrMetrics cls.metrics_attr)
    (org.getattrMetrics cls.computed_metrics_attr) m
  refine ⟨?_, ?_, ?_⟩
  · intro hne
    constructor
    · rw [hm, key.1]
      tauto
    · rw [hc, key.2]
      tauto
  · intro he
    constructor
    · rw [hm, key.1]
      tauto
    · rw [hc, key.2]
      tauto
  · intro hx
    constructor
    · rw [hm, key.1]
      tauto
    · rw [hc, key.2]
      tauto

/-- C6, exercised: `followers` is in both select and exclude and is gone;
`pageviews` survives. -/
theorem C6_select_then_exclude_witness :
    mPv ∈ (TSQuery.init OrgMetricTimeseries orgEx (PyIds.list [1]) c6kw).metrics ∧
    mFl ∉ (TSQuery.init OrgMetricTimeseries orgEx (PyIds.list [1]) c6kw).metrics := by
  constructor
  · exact ((C6_select_then_exclude OrgMetricTimeseries orgEx (PyIds.list [1]) c6kw
      mPv).1 (by decide)).1.mpr ⟨by decide, by decide, by decide⟩
  · exact ((C6_select_then_exclude OrgMetricTimeseries orgEx (PyIds.list [1]) c6kw
      mFl).2.2 (by decide)).1

/-! ## C7: in-place filtering and the org catalogs -/

/-- C7 counterexample: the selection filter does not build fresh narrowed
maps — it pops keys from the very mappings obtained from the org, so after
constructing a query with `select=["pageviews"]` the org's stored catalog
has lost `followers`: the post-construction org differs from the original. -/
theorem C7_copy_based_cex :
    (TSQuery.initWithOrg OrgMetricTimeseries orgEx (PyIds.list [1]) c7kw).2.timeseries_metrics
      = [mPv] ∧
    orgEx.timeseries_metrics = [mPv, mFl] ∧
    (TSQuery.initWithOrg OrgMetricTimeseries orgEx (PyIds.list [1]) c7kw).2 ≠ orgEx := by
  exact ⟨by decide, rfl, by decide⟩

/-- C7 amended: the filter iterates a snapshot of the keys (Python 2
`keys()`), but removes entries in place from the mappings bound from the
org; after construction the org's catalog attributes hold exactly the
narrowed select-then-exclude maps (no other corruption occurs). -/
theorem C7_in_place_filtering (cls : TSQueryClass) (org : Org) (ids0 : PyIds)
    (kw : KW) (h : cls = ContentMetricTimeseries ∨ cls = OrgMetricTimeseries) :
    ((TSQuery.initWithOrg cls org ids0 kw).2).getattrMetrics cls.metrics_attr
      = (TSQuery.init cls org ids0 kw).metrics ∧
    ((TSQuery.initWithOrg cls org ids0 kw).2).getattrMetrics cls.computed_metrics_attr
      = (TSQuery.init cls org ids0 kw).computed_metrics := by
  rcases h with h | h <;> subst h <;>
    exact ⟨by simp [TSQuery.initWithOrg, Org.getattrMetrics, Org.setattrMetrics,
        ContentMetricTimeseries, OrgMetricTimeseries],
      by simp [TSQuery.initWithOrg, Org.getattrMetrics, Org.setattrMetrics,
        ContentMetricTimeseries, OrgMetricTimeseries]⟩

/-- C7 amended, exercised on the concrete org. -/
theorem C7_in_place_filtering_witness :
    ((TSQuery.initWithOrg OrgMetricTimeseries orgEx (PyIds.list [1]) c7kw).2).getattrMetrics
        OrgMetricTimeseries.metrics_attr
      = (TSQuery.init OrgMetricTimeseries orgEx (PyIds.list [1]) c7kw).metrics ∧
    ((TSQuery.initWithOrg OrgMetricTimeseries orgEx (PyIds.list [1]) c7kw).2).getattrMetrics
        OrgMetricTimeseries.computed_metrics_attr
      = (TSQuery.init OrgMetricTimeseries orgEx (PyIds.list [1]) c7kw).computed_metrics :=
  C7_in_place_filtering OrgMetricTimeseries orgEx (PyIds.list [1]) c7kw (Or.inr rfl)

/-! ## C8: computed metrics and the compiled stages -/

/-- C8 counterexample: the computed metric `quality` survives filtering
(`select="*"`), yet the compiled query text never mentions it, while the
base metric `pageviews` — same kind, same aggregation — does appear. -/
theorem C8_computed_ignored_cex :
    c8q.computed_metrics = [mCq] ∧
    c8q.query.isSome = true ∧
    ("pageviews".toList <:+: (c8q.query.getD "").toList) ∧
    ¬ ("quality".toList <:+: (c8q.query.getD "").toList) := by
  exact ⟨rfl, rfl, by decide, by decide⟩

/-- C8 amended: computed metrics are narrowed by select/exclude alongside
base metrics, but no compiled stage reads the computed-metrics map at all —
every stage's select list and the composed query are invariant under
replacing it. -/
theorem C8_computed_not_rendered (q : TSQuery) (c : List MetricDef) :
    (q.setComputed c).init_select = q.init_select ∧
    (q.setComputed c).agg_select = q.agg_select ∧
    (q.setComputed c).non_sparse_select = q.non_sparse_select ∧
    (q.setComputed c).cumulative_select = q.cumulative_select ∧
    (q.setComputed c).query = q.query := by
  cases q
  exact ⟨rfl, rfl, rfl, rfl, rfl⟩

/-! ## C9: determinism of compilation -/

/-- C9: the compiled query text is a function of the QuerySpec and selected
catalog alone — compiling the same spec and catalog twice (the instance
with both states equal) yields identical text, and no hidden state affects
the output: two states agreeing on the spec-relevant fields compile to
identical text even if they differ in `select`/`exclude` leftovers,
`rm_nulls`, `time_since_start`, or the computed-metrics map. -/
theorem C9_deterministic (p r : TSQuery)
    (h1 : p.cls = r.cls) (h2 : p.ids = r.ids) (h3 : p.unit = r.unit)
    (h4 : p.sparse = r.sparse) (h5 : p.sig_digits = r.sig_digits)
    (h6 : p.group_by_id = r.group_by_id) (h7 : p.transform = r.transform)
    (h8 : p.before = r.before) (h9 : p.after = r.after)
    (h10 : p.metrics = r.metrics) (h11 : p.filter_dates = r.filter_dates) :
    p.query = r.query := by
  cases p
  cases r
  dsimp only at h1 h2 h3 h4 h5 h6 h7 h8 h9 h10 h11
  subst h1; subst h2; subst h3; subst h4; subst h5; subst h6
  subst h7; subst h8; subst h9; subst h10; subst h11
  rfl

/-- C9, exercised: two constructions from orgs differing only in the
computed catalog (a field the compiler never renders) yield equal text. -/
theorem C9_deterministic_witness : c9p.query = c9r.query :=
  C9_deterministic c9p c9r rfl rfl rfl rfl rfl rfl rfl rfl rfl rfl rfl

/-! ## C10: scalar arguments and singleton lists -/

/-- C10 counterexample: the scalar select `"*"` is the select-all sentinel
and is not wrapped; the singleton-list form `["*"]` instead narrows to
metrics literally named `*`, so the compiled texts differ. -/
theorem C10_scalar_wrap_cex :
    KW.default.select = PySel.str "*" ∧ c10a.query ≠ c10b.query := by
  exact ⟨rfl, by decide⟩

/-- C10 amended: a scalar id, a scalar exclude, and a scalar select other
than the `"*"` sentinel are wrapped into singleton lists before any
filtering or compilation, and the constructed state — hence the compiled
query text — equals the singleton-list form. -/
theorem C10_scalar_wrap (cls : TSQueryClass) (org : Org) (ids0 : PyIds) (kw : KW)
    (i : Int) (s e : String) (hs : s ≠ "*") :
    TSQuery.init cls org (PyIds.int i) kw = TSQuery.init cls org (PyIds.list [i]) kw ∧
    TSQuery.init cls org ids0 (kw.withSelect (PySel.str s))
      = TSQuery.init cls org ids0 (kw.withSelect (PySel.list [s])) ∧
    TSQuery.init cls org ids0 (kw.withExclude (PySel.str e))
      = TSQuery.init cls org ids0 (kw.withExclude (PySel.list [e])) := by
  refine ⟨rfl, ?_, rfl⟩
  simp [TSQuery.init, TSQuery.select_metrics_fn, TSQuery.select_wrap,
    TSQuery.select_narrow, KW.withSelect, hs, PySel.asList]

/-- C10 amended, exercised at concrete scalar arguments. -/
theorem C10_scalar_wrap_witness :
    TSQuery.init OrgMetricTimeseries orgEx (PyIds.int 7) KW.default
      = TSQuery.init OrgMetricTimeseries orgEx (PyIds.list [7]) KW.default ∧
    TSQuery.init OrgMetricTimeseries orgEx (PyIds.list [1])
        (KW.default.withSelect (PySel.str "pageviews"))
      = TSQuery.init OrgMetricTimeseries orgEx (PyIds.list [1])
        (KW.default.withSelect (PySel.list ["pageviews"])) ∧
    TSQuery.init OrgMetricTimeseries orgEx (PyIds.list [1])
        (KW.default.withExclude (PySel.str "followers"))
      = TSQuery.init OrgMetricTimeseries orgEx (PyIds.list [1])
        (KW.default.withExclude (PySel.list ["followers"])) :=
  C10_scalar_wrap OrgMetricTimeseries orgEx (PyIds.list [1]) KW.default 7
    "pageviews" "followers" (by decide)
